import Mathlib

/-!
Shallow embedding of `src/jwt_token_generator.js` (class `JWTTokenGenerator`),
a JWT token construction engine: base64url codec, header canonicalization,
algorithm-dispatched signing, and the `generateToken` entry point.

JavaScript values that the engine inspects are modelled by `JSValue` (the
top-level arguments) and `Json` (JSON-compatible field values).  The external
Node `crypto` module is modelled by `CryptoProvider`: its deterministic
RSASSA-PKCS1-v1.5 signer (`crypto.createSign("RSA-SHA256")` followed by
`sign.sign(pemString, "base64")`, which with a plain string key uses the
default `RSA_PKCS1_PADDING`), a randomized RSASSA-PSS signer (never invoked
by this code), and the SHA-256 digest (`crypto.createHash("sha256")`).
-/

namespace JWTGen

/-- JSON-compatible values, as produced by JavaScript object literals and
consumed by `JSON.stringify`. -/
inductive Json where
  | null : Json
  | bool : Bool → Json
  | num : Int → Json
  | str : String → Json
  | arr : List Json → Json
  | obj : List (String × Json) → Json

/-- A JavaScript value as it can arrive in one of the four parameters of
`generateToken`: `undefined`, `null`, a boolean, a number, a string, or an
object (modelled as an insertion-ordered field list). -/
inductive JSValue where
  | undefined : JSValue
  | nullv : JSValue
  | boolv : Bool → JSValue
  | numv : Int → JSValue
  | strv : String → JSValue
  | objv : List (String × Json) → JSValue

/-- Property access `o.k` on an object: the value of the first field named
`k`, or `none` when absent (JavaScript `undefined`). -/
def lookupField (fs : List (String × Json)) (k : String) : Option Json :=
  match fs with
  | [] => none
  | (k', v) :: rest => if k' = k then some v else lookupField rest k

/-- JavaScript spread-with-override `{ ...fs, k: v }`: if `k` is already a
key, its value is replaced in place; otherwise `(k, v)` is appended. -/
def setField (fs : List (String × Json)) (k : String) (v : Json) :
    List (String × Json) :=
  match fs with
  | [] => [(k, v)]
  | (k', v') :: rest =>
      if k' = k then (k, v) :: rest else (k', v') :: setField rest k v

/-- JavaScript truthiness of a property-access result: `undefined`, `null`,
`false`, `0` and `""` are falsy, everything else is truthy. -/
def jsTruthy : Option Json → Bool
  | none => false
  | some Json.null => false
  | some (Json.bool b) => b
  | some (Json.num n) => n != 0
  | some (Json.str s) => s != ""
  | some (Json.arr _) => true
  | some (Json.obj _) => true

/-- Lowercase hexadecimal digit, as used by `JSON.stringify` in `\u00xx`
escapes. -/
def hexLowerDigit (n : Nat) : Char :=
  "0123456789abcdef".data.getD n '0'

/-- JSON string escaping of one character, following `JSON.stringify`:
quote and backslash get a backslash, the named control characters get their
short escapes, the rest of the control range gets `\u00xx`, and all other
characters pass through unchanged. -/
def escapeChar (c : Char) : List Char :=
  if c = '"' then ['\\', '"']
  else if c = '\\' then ['\\', '\\']
  else if c.toNat = 8 then ['\\', 'b']
  else if c.toNat = 9 then ['\\', 't']
  else if c.toNat = 10 then ['\\', 'n']
  else if c.toNat = 12 then ['\\', 'f']
  else if c.toNat = 13 then ['\\', 'r']
  else if c.toNat < 32 then
    ['\\', 'u', '0', '0', hexLowerDigit (c.toNat / 16), hexLowerDigit (c.toNat % 16)]
  else [c]

/-- A JSON string literal: the escaped characters between double quotes. -/
def quoteString (s : String) : String :=
  "\"" ++ String.mk (s.data.flatMap escapeChar) ++ "\""

mutual

/-- `JSON.stringify` of a JSON value: no added whitespace, fields kept in
insertion order (no key sorting). -/
def jsonToString : Json → String
  | Json.null => "null"
  | Json.bool true => "true"
  | Json.bool false => "false"
  | Json.num n => toString n
  | Json.str s => quoteString s
  | Json.arr xs => "[" ++ jsonArrToString xs ++ "]"
  | Json.obj fs => "\x7b" ++ jsonObjToString fs ++ "\x7d"

/-- Comma-separated serialization of array elements. -/
def jsonArrToString : List Json → String
  | [] => ""
  | [x] => jsonToString x
  | x :: y :: xs => jsonToString x ++ "," ++ jsonArrToString (y :: xs)

/-- Comma-separated serialization of object fields, each as `"key":value`. -/
def jsonObjToString : List (String × Json) → String
  | [] => ""
  | [(k, v)] => quoteString k ++ ":" ++ jsonToString v
  | (k, v) :: f :: fs =>
      quoteString k ++ ":" ++ jsonToString v ++ "," ++ jsonObjToString (f :: fs)

end

/-- UTF-8 encoding of one Unicode scalar value, as `Buffer.from` performs on
each character of a JavaScript string. -/
def utf8EncodeChar (c : Char) : List Nat :=
  if c.toNat < 128 then [c.toNat]
  else if c.toNat < 2048 then [192 + c.toNat / 64, 128 + c.toNat % 64]
  else if c.toNat < 65536 then
    [224 + c.toNat / 4096, 128 + c.toNat / 64 % 64, 128 + c.toNat % 64]
  else
    [240 + c.toNat / 262144, 128 + c.toNat / 4096 % 64, 128 + c.toNat / 64 % 64,
      128 + c.toNat % 64]

/-- `Buffer.from(str)`: the UTF-8 bytes of a string. -/
def utf8Encode (s : String) : List Nat :=
  s.data.flatMap utf8EncodeChar

/-- The 64 characters of the standard base64 alphabet. -/
def b64Alphabet : List Char :=
  "ABCDEFGHIJKLMNOPQRSTUVWXYZabcdefghijklmnopqrstuvwxyz0123456789+/".data

/-- The base64 alphabet character for a sextet value. -/
def b64Char (i : Nat) : Char :=
  b64Alphabet.getD i 'A'

/-- Standard base64 of a byte sequence, three input bytes to four output
characters, with `=` padding for a short final group — the character list
behind `Buffer.prototype.toString("base64")` and the `"base64"` output
encoding of Node sign/digest calls. -/
def base64Chunks : List Nat → List Char
  | [] => []
  | [b1] => [b64Char (b1 / 4), b64Char (b1 % 4 * 16), '=', '=']
  | [b1, b2] =>
      [b64Char (b1 / 4), b64Char (b1 % 4 * 16 + b2 / 16), b64Char (b2 % 16 * 4), '=']
  | b1 :: b2 :: b3 :: rest =>
      b64Char (b1 / 4) :: b64Char (b1 % 4 * 16 + b2 / 16) ::
      b64Char (b2 % 16 * 4 + b3 / 64) :: b64Char (b3 % 64) :: base64Chunks rest

/-- Padded standard base64 text of a byte sequence. -/
def base64PadEncode (bs : List Nat) : String :=
  String.mk (base64Chunks bs)

/-- The two alphabet replacements of `base64UrlEncode`:
`+` becomes `-` and `/` becomes `_`. -/
def swapUrlChar (c : Char) : Char :=
  if c = '+' then '-' else if c = '/' then '_' else c

/-- The character list of the unpadded base64url form of a byte sequence:
standard base64, then `+`/`/` replaced and every `=` removed (the three
`replace` calls of the source, which commute into one map and one filter
because the replacements never produce `=`). -/
def b64UrlChars (bs : List Nat) : List Char :=
  ((base64Chunks bs).map swapUrlChar).filter (fun c => c != '=')

/-- `base64UrlEncode(str)` from the source: UTF-8 bytes of the string,
standard base64, `+`→`-`, `/`→`_`, all `=` stripped. -/
def base64UrlEncode (s : String) : String :=
  String.mk (b64UrlChars (utf8Encode s))

/-- Unpadded base64url applied directly to raw bytes — what the JWT wire
format prescribes for the signature segment, used to compare against what
the code actually emits. -/
def base64UrlOfBytes (bs : List Nat) : String :=
  String.mk (b64UrlChars bs)

/-- The external Node `crypto` module, as the engine uses it.  Two calls to
`generateToken` correspond to two `CryptoProvider` values: the deterministic
primitives (`pkcs1Sign`, `sha256Digest`) agree between them, while `pssSign`
— the randomized RSASSA-PSS signer, which this code never invokes — may
differ from call to call. -/
structure CryptoProvider where
  /-- `crypto.createSign("RSA-SHA256")` + `sign(pemKey)` with a plain PEM
  string and no options object: RSASSA-PKCS1-v1.5 over the SHA-256 digest of
  the data (Node default `RSA_PKCS1_PADDING`); deterministic, returns the
  raw signature bytes. -/
  pkcs1Sign : String → String → List Nat
  /-- RSASSA-PSS over SHA-256 with salt length 32 — the primitive PS256
  requires; randomized, so it is not a function of data and key alone and is
  modelled per call.  The source never calls it. -/
  pssSign : String → String → List Nat
  /-- `crypto.createHash("sha256")`: the 32-byte SHA-256 digest of a byte
  sequence; deterministic. -/
  sha256Digest : List Nat → List Nat

/-- The RSA signature padding modes relevant here. -/
inductive RSAPadding where
  | pkcs1v15 : RSAPadding
  | pss : Nat → RSAPadding
deriving DecidableEq

/-- The padding mode of the primitive `signPS256` actually invokes:
`crypto.createSign("RSA-SHA256")` signed with a plain PEM string key uses
Node's default `RSA_PKCS1_PADDING`, i.e. RSASSA-PKCS1-v1.5 — not PSS. -/
def signPS256PaddingUsed : RSAPadding :=
  RSAPadding.pkcs1v15

/-- `signPS256(data, private_key)` from the source: RSA-SHA256 sign with the
default padding, result taken as base64 text, then passed through
`base64UrlEncode` (which re-encodes that text as bytes). -/
def signPS256 (P : CryptoProvider) (data private_key : String) : String :=
  base64UrlEncode (base64PadEncode (P.pkcs1Sign data private_key))

/-- `signRS256(data, private_key)` from the source: textually the same
computation as `signPS256`. -/
def signRS256 (P : CryptoProvider) (data private_key : String) : String :=
  base64UrlEncode (base64PadEncode (P.pkcs1Sign data private_key))

/-- `signSHA256(data, private_key)` from the source: SHA-256 digest of the
data, taken as base64 text, then passed through `base64UrlEncode`; the
private key parameter is ignored. -/
def signSHA256 (P : CryptoProvider) (data _private_key : String) : String :=
  base64UrlEncode (base64PadEncode (P.sha256Digest (utf8Encode data)))

/-- `this.supportedAlgorithms` from the constructor. -/
def supportedAlgorithms : List String :=
  ["PS256", "RS256", "SHA256"]

/-- The second half of the algorithm check,
`this.supportedAlgorithms.includes(headers.alg)`: array `includes` compares
with strict equality, so only a string value can match. -/
def algIncluded (ho : List (String × Json)) : Bool :=
  match lookupField ho "alg" with
  | some (Json.str s) => supportedAlgorithms.contains s
  | _ => false

/-- `const finalHeaders = { ...headers, typ: "JWT" }` from the source. -/
def canonicalizeHeader (ho : List (String × Json)) : List (String × Json) :=
  setField ho "typ" (Json.str "JWT")

/-- JavaScript template-literal display of a header field value, used only
in the `Unsupported algorithm:` message of the dispatch default branch —
unreachable from `generateToken`, whose validation has already pinned the
value to one of the three supported algorithm strings.  Array display is
abbreviated. -/
def jsDisplay : Option Json → String
  | none => "undefined"
  | some Json.null => "null"
  | some (Json.bool true) => "true"
  | some (Json.bool false) => "false"
  | some (Json.num n) => toString n
  | some (Json.str s) => s
  | some (Json.arr _) => ""
  | some (Json.obj _) => "[object Object]"

/-- `generateToken(headers, payload, signing_key, private_key)` from the
source.  A thrown `Error` is modelled as `Except.error` carrying the
message (the `catch` block only logs and rethrows).  The checks appear in
source order: headers must be a non-null object, payload must be a non-null
object, the private key must be a truthy string, `headers.alg` must be
truthy and included in `supportedAlgorithms`, and `headers.kid` must be
truthy; the `signing_key` parameter is never consulted. -/
def generateToken (P : CryptoProvider)
    (headers payload signing_key private_key : JSValue) :
    Except String String :=
  match headers with
  | JSValue.objv ho =>
    match payload with
    | JSValue.objv po =>
      match private_key with
      | JSValue.strv pk =>
        if pk = "" then Except.error "Private key must be a string in PEM format"
        else if !jsTruthy (lookupField ho "alg") || !algIncluded ho then
          Except.error ("Invalid algorithm. Supported: " ++
            String.intercalate ", " supportedAlgorithms)
        else if !jsTruthy (lookupField ho "kid") then
          Except.error "Missing \x27kid\x27 in headers"
        else
          let finalHeaders := canonicalizeHeader ho
          let encodedHeader := base64UrlEncode (jsonToString (Json.obj finalHeaders))
          let encodedPayload := base64UrlEncode (jsonToString (Json.obj po))
          let signingInput := encodedHeader ++ "." ++ encodedPayload
          match lookupField finalHeaders "alg" with
          | some (Json.str s) =>
            if s = "PS256" then
              Except.ok (encodedHeader ++ "." ++ encodedPayload ++ "." ++
                signPS256 P signingInput pk)
            else if s = "RS256" then
              Except.ok (encodedHeader ++ "." ++ encodedPayload ++ "." ++
                signRS256 P signingInput pk)
            else if s = "SHA256" then
              Except.ok (encodedHeader ++ "." ++ encodedPayload ++ "." ++
                signSHA256 P signingInput pk)
            else Except.error ("Unsupported algorithm: " ++ s)
          | other => Except.error ("Unsupported algorithm: " ++ jsDisplay other)
      | _ => Except.error "Private key must be a string in PEM format"
    | _ => Except.error "Payload must be an object"
  | _ => Except.error "Headers must be an object"

/-- Modelled from the spec, amended to the order the source actually uses:
the validation outcome of a `generateToken` call — the error message of the
first failing check, or `none` when all checks pass.  The checks run in the
order: (1) header is a non-null object, (2) payload is a non-null object,
(3) private key material is a non-empty string — for every algorithm — then
(4) `alg` is truthy and supported, (5) `kid` is truthy. -/
def validationOutcome (headers payload private_key : JSValue) : Option String :=
  match headers with
  | JSValue.objv ho =>
    match payload with
    | JSValue.objv _ =>
      match private_key with
      | JSValue.strv pk =>
        if pk = "" then some "Private key must be a string in PEM format"
        else if !jsTruthy (lookupField ho "alg") || !algIncluded ho then
          some ("Invalid algorithm. Supported: " ++
            String.intercalate ", " supportedAlgorithms)
        else if !jsTruthy (lookupField ho "kid") then
          some "Missing \x27kid\x27 in headers"
        else none
      | _ => some "Private key must be a string in PEM format"
    | _ => some "Payload must be an object"
  | _ => some "Headers must be an object"

/-- Token assembly through the RS256 signing pipeline: both asymmetric
branches produce exactly this string for their own encoded header, encoded
payload and key. -/
def tokenWithSig (P : CryptoProvider) (eh ep pk : String) : String :=
  eh ++ "." ++ ep ++ "." ++ signRS256 P (eh ++ "." ++ ep) pk

/-- A concrete crypto provider for evaluating the model on fixtures: a
one-byte RSA signature, a two-byte PSS signature and an all-zero 32-byte
digest. -/
def trivialProvider : CryptoProvider :=
  ⟨fun _ _ => [1], fun _ _ => [2, 2], fun _ => List.replicate 32 0⟩

/-- A provider that agrees with `trivialProvider` on the deterministic
primitives but draws a different PSS signature — a second call under
randomized padding. -/
def otherSaltProvider : CryptoProvider :=
  ⟨fun _ _ => [1], fun _ _ => [3, 4, 5], fun _ => List.replicate 32 0⟩

/-- Fixture header map `{alg:"RS256", kid:"k1"}`. -/
def rsHeader : List (String × Json) :=
  [("alg", Json.str "RS256"), ("kid", Json.str "k1")]

/-- Fixture header map `{alg:"SHA256", kid:"k1"}`. -/
def shaHeader : List (String × Json) :=
  [("alg", Json.str "SHA256"), ("kid", Json.str "k1")]

/-- Fixture header map `{alg:"PS256", kid:"k1"}`. -/
def psHeader : List (String × Json) :=
  [("alg", Json.str "PS256"), ("kid", Json.str "k1")]

/-- Fixture payload map `{sub:"u1"}`. -/
def subPayload : List (String × Json) :=
  [("sub", Json.str "u1")]

/-- Encoded header segment of the SHA256 fixture. -/
def shaFixtureEH : String :=
  base64UrlEncode (jsonToString (Json.obj (canonicalizeHeader shaHeader)))

/-- Encoded payload segment of the `{sub:"u1"}` fixture. -/
def shaFixtureEP : String :=
  base64UrlEncode (jsonToString (Json.obj subPayload))

theorem lookupField_setField_self (fs : List (String × Json)) (k : String) (v : Json) :
    lookupField (setField fs k v) k = some v := by
  induction fs with
  | nil => simp [setField, lookupField]
  | cons p rest ih =>
    obtain ⟨pk, pv⟩ := p
    by_cases h : pk = k
    · subst h
      simp [setField, lookupField]
    · simp [setField, lookupField, h, ih]

theorem lookupField_setField_ne (fs : List (String × Json)) (k k' : String) (v : Json)
    (h : k' ≠ k) : lookupField (setField fs k v) k' = lookupField fs k' := by
  induction fs with
  | nil => simp [setField, lookupField, Ne.symm h]
  | cons p rest ih =>
    obtain ⟨pk, pv⟩ := p
    by_cases hk : pk = k
    · subst hk
      simp [setField, lookupField, Ne.symm h]
    · by_cases hk' : pk = k'
      · subst hk'
        simp [setField, lookupField, hk]
      · simp [setField, lookupField, hk, hk', ih]

theorem b64Alphabet_length : b64Alphabet.length = 64 := by decide

theorem b64Char_mem (i : Nat) : b64Char i ∈ b64Alphabet := by
  by_cases h : i < 64
  · revert h
    revert i
    decide
  · unfold b64Char
    rw [List.getD_eq_getElem?_getD, List.getElem?_eq_none]
    · decide
    · rw [b64Alphabet_length]
      omega

theorem b64Char_ne_pad (i : Nat) : b64Char i ≠ '=' := by
  intro h
  have hm := b64Char_mem i
  rw [h] at hm
  revert hm
  decide

theorem swapUrlChar_eq_pad (c : Char) (h : swapUrlChar c = '=') : c = '=' := by
  unfold swapUrlChar at h
  split at h
  · exact absurd h (by decide)
  · split at h
    · exact absurd h (by decide)
    · exact h

theorem swapUrlChar_eq_dot (c : Char) (h : swapUrlChar c = '.') : c = '.' := by
  unfold swapUrlChar at h
  split at h
  · exact absurd h (by decide)
  · split at h
    · exact absurd h (by decide)
    · exact h

theorem swapUrlChar_ne_plus (c : Char) : swapUrlChar c ≠ '+' := by
  unfold swapUrlChar
  split
  · decide
  · split
    · decide
    · assumption

theorem swapUrlChar_ne_slash (c : Char) : swapUrlChar c ≠ '/' := by
  unfold swapUrlChar
  split
  · decide
  · split
    · decide
    · assumption

theorem swap_b64Char_bne (i : Nat) : (swapUrlChar (b64Char i) != '=') = true := by
  rw [bne_iff_ne]
  intro h
  exact b64Char_ne_pad i (swapUrlChar_eq_pad _ h)

theorem swapUrlChar_pad : swapUrlChar '=' = '=' := by decide

theorem base64Chunks_mem (bs : List Nat) :
    ∀ c ∈ base64Chunks bs, c ∈ b64Alphabet ∨ c = '=' := by
  match bs with
  | [] => simp [base64Chunks]
  | [b1] =>
    intro c hc
    simp only [base64Chunks, List.mem_cons, List.not_mem_nil, or_false] at hc
    rcases hc with rfl | rfl | rfl | rfl
    · exact Or.inl (b64Char_mem _)
    · exact Or.inl (b64Char_mem _)
    · exact Or.inr rfl
    · exact Or.inr rfl
  | [b1, b2] =>
    intro c hc
    simp only [base64Chunks, List.mem_cons, List.not_mem_nil, or_false] at hc
    rcases hc with rfl | rfl | rfl | rfl
    · exact Or.inl (b64Char_mem _)
    · exact Or.inl (b64Char_mem _)
    · exact Or.inl (b64Char_mem _)
    · exact Or.inr rfl
  | b1 :: b2 :: b3 :: rest =>
    intro c hc
    simp only [base64Chunks, List.mem_cons] at hc
    rcases hc with rfl | rfl | rfl | rfl | hmem
    · exact Or.inl (b64Char_mem _)
    · exact Or.inl (b64Char_mem _)
    · exact Or.inl (b64Char_mem _)
    · exact Or.inl (b64Char_mem _)
    · exact base64Chunks_mem rest c hmem

theorem b64UrlChars_forbidden (bs : List Nat) :
    ∀ c ∈ b64UrlChars bs, c ≠ '+' ∧ c ≠ '/' ∧ c ≠ '=' ∧ c ≠ '.' := by
  intro c hc
  unfold b64UrlChars at hc
  rw [List.mem_filter] at hc
  obtain ⟨hm, hne⟩ := hc
  rw [List.mem_map] at hm
  obtain ⟨c0, hc0, rfl⟩ := hm
  refine ⟨swapUrlChar_ne_plus c0, swapUrlChar_ne_slash c0, ?_, ?_⟩
  · rw [bne_iff_ne] at hne
    exact hne
  · intro hdot
    have hc0dot : c0 = '.' := swapUrlChar_eq_dot c0 hdot
    subst hc0dot
    rcases base64Chunks_mem bs '.' hc0 with hmem | hpad
    · exact absurd hmem (by decide)
    · exact absurd hpad (by decide)

theorem b64UrlChars_ne_nil (bs : List Nat) (h : bs ≠ []) : b64UrlChars bs ≠ [] := by
  match bs with
  | [] => exact absurd rfl h
  | [b1] =>
    simp [b64UrlChars, base64Chunks, List.filter_cons, swap_b64Char_bne,
      swapUrlChar_pad]
  | [b1, b2] =>
    simp [b64UrlChars, base64Chunks, List.filter_cons, swap_b64Char_bne,
      swapUrlChar_pad]
  | b1 :: b2 :: b3 :: rest =>
    simp [b64UrlChars, base64Chunks, List.filter_cons, swap_b64Char_bne,
      swapUrlChar_pad]

theorem b64UrlChars_length (bs : List Nat) :
    (b64UrlChars bs).length = (4 * bs.length + 2) / 3 := by
  match bs with
  | [] => simp [b64UrlChars, base64Chunks]
  | [b1] =>
    simp [b64UrlChars, base64Chunks, List.filter_cons, swap_b64Char_bne,
      swapUrlChar_pad]
  | [b1, b2] =>
    simp [b64UrlChars, base64Chunks, List.filter_cons, swap_b64Char_bne,
      swapUrlChar_pad]
  | b1 :: b2 :: b3 :: rest =>
    have ih := b64UrlChars_length rest
    simp only [b64UrlChars, base64Chunks, List.map_cons, List.filter_cons,
      swap_b64Char_bne, if_true, List.length_cons] at ih ⊢
    rw [ih]
    omega

theorem base64Chunks_length : ∀ (bs : List Nat),
    (base64Chunks bs).length = 4 * ((bs.length + 2) / 3)
  | [] => rfl
  | [_] => by simp [base64Chunks]
  | [_, _] => by simp [base64Chunks]
  | b1 :: b2 :: b3 :: rest => by
    have ih := base64Chunks_length rest
    simp only [base64Chunks, List.length_cons] at ih ⊢
    rw [ih]
    omega

theorem base64Chunks_ascii (bs : List Nat) :
    ∀ c ∈ base64Chunks bs, c.toNat < 128 := by
  intro c hc
  rcases base64Chunks_mem bs c hc with hmem | rfl
  · have hall : ∀ c ∈ b64Alphabet, c.toNat < 128 := by decide
    exact hall c hmem
  · decide

theorem utf8EncodeChar_ne_nil (c : Char) : utf8EncodeChar c ≠ [] := by
  unfold utf8EncodeChar
  split
  · simp
  · split
    · simp
    · split
      · simp
      · simp

theorem utf8EncodeChar_of_ascii (c : Char) (h : c.toNat < 128) :
    utf8EncodeChar c = [c.toNat] := by
  unfold utf8EncodeChar
  rw [if_pos h]

theorem utf8_ascii_length (cs : List Char) (h : ∀ c ∈ cs, c.toNat < 128) :
    (cs.flatMap utf8EncodeChar).length = cs.length := by
  induction cs with
  | nil => simp
  | cons c rest ih =>
    rw [List.flatMap_cons, List.length_append,
      utf8EncodeChar_of_ascii c (h c (List.mem_cons_self c rest)),
      ih (fun c' hc' => h c' (List.mem_cons_of_mem c hc'))]
    simp only [List.length_cons, List.length_nil]
    omega

theorem utf8Encode_ne_nil (s : String) (h : s.data ≠ []) : utf8Encode s ≠ [] := by
  unfold utf8Encode
  match hd : s.data with
  | [] => exact absurd hd h
  | c :: rest =>
    rw [List.flatMap_cons]
    intro hcontra
    rcases List.append_eq_nil.mp hcontra with ⟨h1, _⟩
    exact utf8EncodeChar_ne_nil c h1

theorem base64UrlEncode_ne_empty (s : String) (h : s.data ≠ []) :
    base64UrlEncode s ≠ "" := by
  unfold base64UrlEncode
  intro hcontra
  have hdata := congrArg String.data hcontra
  simp only [String.data] at hdata
  exact b64UrlChars_ne_nil (utf8Encode s) (utf8Encode_ne_nil s h) hdata

theorem base64PadEncode_data (bs : List Nat) :
    (base64PadEncode bs).data = base64Chunks bs := rfl

theorem base64UrlEncode_data (s : String) :
    (base64UrlEncode s).data = b64UrlChars (utf8Encode s) := rfl

theorem base64UrlOfBytes_data (bs : List Nat) :
    (base64UrlOfBytes bs).data = b64UrlChars bs := rfl

theorem jsonToString_obj_data_ne_nil (fs : List (String × Json)) :
    (jsonToString (Json.obj fs)).data ≠ [] := by
  rw [jsonToString]
  rw [String.data_append, String.data_append]
  intro h
  rcases List.append_eq_nil.mp h with ⟨h1, _⟩
  rcases List.append_eq_nil.mp h1 with ⟨h2, _⟩
  exact absurd h2 (by decide)

theorem lookupField_canonicalize_alg (ho : List (String × Json)) :
    lookupField (canonicalizeHeader ho) "alg" = lookupField ho "alg" := by
  unfold canonicalizeHeader
  exact lookupField_setField_ne _ _ _ _ (by decide)

theorem generateToken_ok_PS256 (P : CryptoProvider) (ho po : List (String × Json))
    (sk : JSValue) (pk : String) (hpk : pk ≠ "")
    (halg : lookupField ho "alg" = some (Json.str "PS256"))
    (hkid : jsTruthy (lookupField ho "kid") = true) :
    generateToken P (JSValue.objv ho) (JSValue.objv po) sk (JSValue.strv pk) =
      Except.ok (base64UrlEncode (jsonToString (Json.obj (canonicalizeHeader ho))) ++ "." ++
        base64UrlEncode (jsonToString (Json.obj po)) ++ "." ++
        signPS256 P (base64UrlEncode (jsonToString (Json.obj (canonicalizeHeader ho))) ++ "." ++
          base64UrlEncode (jsonToString (Json.obj po))) pk) := by
  have halg2 : lookupField (canonicalizeHeader ho) "alg" = some (Json.str "PS256") := by
    rw [lookupField_canonicalize_alg]
    exact halg
  simp [generateToken, hpk, halg, halg2, hkid, algIncluded, jsTruthy, supportedAlgorithms]
  simpa [jsTruthy] using hkid

theorem generateToken_ok_RS256 (P : CryptoProvider) (ho po : List (String × Json))
    (sk : JSValue) (pk : String) (hpk : pk ≠ "")
    (halg : lookupField ho "alg" = some (Json.str "RS256"))
    (hkid : jsTruthy (lookupField ho "kid") = true) :
    generateToken P (JSValue.objv ho) (JSValue.objv po) sk (JSValue.strv pk) =
      Except.ok (base64UrlEncode (jsonToString (Json.obj (canonicalizeHeader ho))) ++ "." ++
        base64UrlEncode (jsonToString (Json.obj po)) ++ "." ++
        signRS256 P (base64UrlEncode (jsonToString (Json.obj (canonicalizeHeader ho))) ++ "." ++
          base64UrlEncode (jsonToString (Json.obj po))) pk) := by
  have halg2 : lookupField (canonicalizeHeader ho) "alg" = some (Json.str "RS256") := by
    rw [lookupField_canonicalize_alg]
    exact halg
  simp [generateToken, hpk, halg, halg2, hkid, algIncluded, jsTruthy, supportedAlgorithms]
  simpa [jsTruthy] using hkid

theorem generateToken_ok_SHA256 (P : CryptoProvider) (ho po : List (String × Json))
    (sk : JSValue) (pk : String) (hpk : pk ≠ "")
    (halg : lookupField ho "alg" = some (Json.str "SHA256"))
    (hkid : jsTruthy (lookupField ho "kid") = true) :
    generateToken P (JSValue.objv ho) (JSValue.objv po) sk (JSValue.strv pk) =
      Except.ok (base64UrlEncode (jsonToString (Json.obj (canonicalizeHeader ho))) ++ "." ++
        base64UrlEncode (jsonToString (Json.obj po)) ++ "." ++
        signSHA256 P (base64UrlEncode (jsonToString (Json.obj (canonicalizeHeader ho))) ++ "." ++
          base64UrlEncode (jsonToString (Json.obj po))) pk) := by
  have halg2 : lookupField (canonicalizeHeader ho) "alg" = some (Json.str "SHA256") := by
    rw [lookupField_canonicalize_alg]
    exact halg
  simp [generateToken, hpk, halg, halg2, hkid, algIncluded, jsTruthy, supportedAlgorithms]
  simpa [jsTruthy] using hkid

theorem generateToken_error_of_outcome (P : CryptoProvider)
    (headers payload sk pkv : JSValue) (msg : String)
    (h : validationOutcome headers payload pkv = some msg) :
    generateToken P headers payload sk pkv = Except.error msg := by
  cases headers with
  | objv ho =>
    cases payload with
    | objv po =>
      cases pkv with
      | strv pk =>
        by_cases hpk : pk = ""
        · simp [validationOutcome, hpk] at h
          simp [generateToken, hpk, ← h]
        · by_cases halg : (!jsTruthy (lookupField ho "alg") || !algIncluded ho) = true
          · simp only [validationOutcome, if_neg hpk, if_pos halg, Option.some.injEq] at h
            simp only [generateToken, if_neg hpk, if_pos halg]
            rw [h]
          · by_cases hkid : (!jsTruthy (lookupField ho "kid")) = true
            · simp only [validationOutcome, if_neg hpk, if_neg halg, if_pos hkid,
                Option.some.injEq] at h
              simp only [generateToken, if_neg hpk, if_neg halg, if_pos hkid]
              rw [h]
            · simp only [validationOutcome, if_neg hpk, if_neg halg, if_neg hkid] at h
              exact absurd h (by simp)
      | undefined => simp [validationOutcome] at h; simp [generateToken, ← h]
      | nullv => simp [validationOutcome] at h; simp [generateToken, ← h]
      | boolv b => simp [validationOutcome] at h; simp [generateToken, ← h]
      | numv n => simp [validationOutcome] at h; simp [generateToken, ← h]
      | objv o => simp [validationOutcome] at h; simp [generateToken, ← h]
    | undefined => simp [validationOutcome] at h; simp [generateToken, ← h]
    | nullv => simp [validationOutcome] at h; simp [generateToken, ← h]
    | boolv b => simp [validationOutcome] at h; simp [generateToken, ← h]
    | numv n => simp [validationOutcome] at h; simp [generateToken, ← h]
    | strv s => simp [validationOutcome] at h; simp [generateToken, ← h]
  | undefined => simp [validationOutcome] at h; simp [generateToken, ← h]
  | nullv => simp [validationOutcome] at h; simp [generateToken, ← h]
  | boolv b => simp [validationOutcome] at h; simp [generateToken, ← h]
  | numv n => simp [validationOutcome] at h; simp [generateToken, ← h]
  | strv s => simp [validationOutcome] at h; simp [generateToken, ← h]

theorem algIncluded_cases (ho : List (String × Json)) (h : algIncluded ho = true) :
    lookupField ho "alg" = some (Json.str "PS256") ∨
    lookupField ho "alg" = some (Json.str "RS256") ∨
    lookupField ho "alg" = some (Json.str "SHA256") := by
  unfold algIncluded at h
  split at h
  · next s heq =>
    have hmem : s ∈ supportedAlgorithms := by simpa using h
    simp only [supportedAlgorithms, List.mem_cons, List.not_mem_nil, or_false] at hmem
    rcases hmem with rfl | rfl | rfl
    · exact Or.inl heq
    · exact Or.inr (Or.inl heq)
    · exact Or.inr (Or.inr heq)
  · exact absurd h (by simp)

theorem generateToken_ok_of_outcome_none (P : CryptoProvider)
    (headers payload sk pkv : JSValue)
    (h : validationOutcome headers payload pkv = none) :
    ∃ t, generateToken P headers payload sk pkv = Except.ok t := by
  cases headers with
  | objv ho =>
    cases payload with
    | objv po =>
      cases pkv with
      | strv pk =>
        by_cases hpk : pk = ""
        · simp [validationOutcome, hpk] at h
        · by_cases halg : (!jsTruthy (lookupField ho "alg") || !algIncluded ho) = true
          · simp only [validationOutcome, if_neg hpk, if_pos halg] at h
            exact absurd h (by simp)
          · by_cases hkid : (!jsTruthy (lookupField ho "kid")) = true
            · simp only [validationOutcome, if_neg hpk, if_neg halg, if_pos hkid] at h
              exact absurd h (by simp)
            · have hkid2 : jsTruthy (lookupField ho "kid") = true := by
                simpa using hkid
              have halg2 : algIncluded ho = true := by
                simp only [Bool.or_eq_true, Bool.not_eq_true', not_or,
                  Bool.not_eq_false] at halg
                exact halg.2
              rcases algIncluded_cases ho halg2 with h1 | h1 | h1
              · exact ⟨_, generateToken_ok_PS256 P ho po sk pk hpk h1 hkid2⟩
              · exact ⟨_, generateToken_ok_RS256 P ho po sk pk hpk h1 hkid2⟩
              · exact ⟨_, generateToken_ok_SHA256 P ho po sk pk hpk h1 hkid2⟩
      | undefined => simp [validationOutcome] at h
      | nullv => simp [validationOutcome] at h
      | boolv b => simp [validationOutcome] at h
      | numv n => simp [validationOutcome] at h
      | objv o => simp [validationOutcome] at h
    | undefined => simp [validationOutcome] at h
    | nullv => simp [validationOutcome] at h
    | boolv b => simp [validationOutcome] at h
    | numv n => simp [validationOutcome] at h
    | strv s => simp [validationOutcome] at h
  | undefined => simp [validationOutcome] at h
  | nullv => simp [validationOutcome] at h
  | boolv b => simp [validationOutcome] at h
  | numv n => simp [validationOutcome] at h
  | strv s => simp [validationOutcome] at h

theorem generateToken_det_fields (f g1 g2 d : _) (headers payload sk pkv : JSValue) :
    generateToken ⟨f, g1, d⟩ headers payload sk pkv =
      generateToken ⟨f, g2, d⟩ headers payload sk pkv := by
  cases headers <;> cases payload <;> cases pkv <;>
    simp [generateToken, signPS256, signRS256, signSHA256]

theorem base64Chunks_ne_nil (bs : List Nat) (h : bs ≠ []) : base64Chunks bs ≠ [] := by
  match bs with
  | [] => exact absurd rfl h
  | [b1] => simp [base64Chunks]
  | [b1, b2] => simp [base64Chunks]
  | b1 :: b2 :: b3 :: rest => simp [base64Chunks]

theorem base64UrlEncode_of_b64_ne_empty (bs : List Nat) (h : bs ≠ []) :
    base64UrlEncode (base64PadEncode bs) ≠ "" := by
  apply base64UrlEncode_ne_empty
  rw [base64PadEncode_data]
  exact base64Chunks_ne_nil bs h

theorem base64UrlEncode_forbidden (s : String) :
    ∀ ch ∈ (base64UrlEncode s).data, ch ≠ '+' ∧ ch ≠ '/' ∧ ch ≠ '=' ∧ ch ≠ '.' := by
  rw [base64UrlEncode_data]
  exact b64UrlChars_forbidden (utf8Encode s)

theorem dotfree_count (a b c : String)
    (ha : ∀ ch ∈ a.data, ch ≠ '.') (hb : ∀ ch ∈ b.data, ch ≠ '.')
    (hc : ∀ ch ∈ c.data, ch ≠ '.') :
    (a ++ "." ++ b ++ "." ++ c).data.count '.' = 2 := by
  have ca : a.data.count '.' = 0 :=
    List.count_eq_zero.mpr (fun hmem => ha '.' hmem rfl)
  have cb : b.data.count '.' = 0 :=
    List.count_eq_zero.mpr (fun hmem => hb '.' hmem rfl)
  have cc : c.data.count '.' = 0 :=
    List.count_eq_zero.mpr (fun hmem => hc '.' hmem rfl)
  simp only [String.data_append, List.count_append, ca, cb, cc]
  rfl

theorem string_length_data (s : String) : s.length = s.data.length := rfl

theorem base64UrlEncode_length (s : String) :
    (base64UrlEncode s).length = (4 * (utf8Encode s).length + 2) / 3 := by
  rw [string_length_data, base64UrlEncode_data, b64UrlChars_length]

theorem base64UrlOfBytes_length (bs : List Nat) :
    (base64UrlOfBytes bs).length = (4 * bs.length + 2) / 3 := by
  rw [string_length_data, base64UrlOfBytes_data, b64UrlChars_length]

theorem utf8Encode_base64PadEncode_length (bs : List Nat) :
    (utf8Encode (base64PadEncode bs)).length = 4 * ((bs.length + 2) / 3) := by
  unfold utf8Encode
  rw [base64PadEncode_data, utf8_ascii_length _ (base64Chunks_ascii bs),
    base64Chunks_length]

/-- C1: the spec says `signPS256` computes an RSASSA-PSS signature over the
SHA-256 digest with salt length 32, verifiable under PSS.  The code instead
signs through `crypto.createSign("RSA-SHA256")` with a plain PEM string key,
i.e. the deterministic RSASSA-PKCS1-v1.5 primitive: the PS256 branch is
byte-for-byte the RS256 branch, never touches the PSS primitive of the
provider, and the padding mode it uses is `pkcs1v15`, not `pss 32` — so the
produced signature is not a PSS/salt-32 signature. -/
theorem c1_ps256_signs_with_pkcs1v15 :
    (∀ (P : CryptoProvider) (data key : String),
      signPS256 P data key = signRS256 P data key) ∧
    (∀ (f g1 g2 : String → String → List Nat) (d : List Nat → List Nat)
      (data key : String),
      signPS256 ⟨f, g1, d⟩ data key = signPS256 ⟨f, g2, d⟩ data key) ∧
    signPS256PaddingUsed ≠ RSAPadding.pss 32 :=
  ⟨fun _ _ _ => rfl, fun _ _ _ _ _ _ => rfl, by decide⟩

/-- C2: the spec says the third token segment is the base64url encoding of
the raw signature bytes (for SHA256, decoding it yields the 32 digest
bytes).  The code base64-encodes the raw bytes twice: the digest is first
rendered as padded base64 text (`digest("base64")`) and that 44-character
text is then base64url-encoded, so the third segment of the SHA256 fixture
token is a 59-character string, while the base64url encoding of the raw
32-byte digest has 43 characters — the segment can never equal it. -/
theorem c2_sha256_segment_double_encoded (P : CryptoProvider)
    (h32 : ∀ bs, (P.sha256Digest bs).length = 32) :
    generateToken P (JSValue.objv shaHeader) (JSValue.objv subPayload)
        (JSValue.strv "sk") (JSValue.strv "pem") =
      Except.ok (shaFixtureEH ++ "." ++ shaFixtureEP ++ "." ++
        signSHA256 P (shaFixtureEH ++ "." ++ shaFixtureEP) "pem") ∧
    signSHA256 P (shaFixtureEH ++ "." ++ shaFixtureEP) "pem" ≠
      base64UrlOfBytes
        (P.sha256Digest (utf8Encode (shaFixtureEH ++ "." ++ shaFixtureEP))) := by
  constructor
  · exact generateToken_ok_SHA256 P shaHeader subPayload (JSValue.strv "sk") "pem"
      (by decide) rfl rfl
  · intro heq
    have hlen := congrArg String.length heq
    simp only [signSHA256] at hlen
    rw [base64UrlEncode_length, utf8Encode_base64PadEncode_length, h32,
      base64UrlOfBytes_length, h32] at hlen
    omega

/-- Witness for C2 at the concrete `trivialProvider`. -/
theorem c2_sha256_segment_double_encoded_witness :
    generateToken trivialProvider (JSValue.objv shaHeader) (JSValue.objv subPayload)
        (JSValue.strv "sk") (JSValue.strv "pem") =
      Except.ok (shaFixtureEH ++ "." ++ shaFixtureEP ++ "." ++
        signSHA256 trivialProvider (shaFixtureEH ++ "." ++ shaFixtureEP) "pem") ∧
    signSHA256 trivialProvider (shaFixtureEH ++ "." ++ shaFixtureEP) "pem" ≠
      base64UrlOfBytes (trivialProvider.sha256Digest
        (utf8Encode (shaFixtureEH ++ "." ++ shaFixtureEP))) :=
  c2_sha256_segment_double_encoded trivialProvider
    (fun bs => by simp [trivialProvider])

/-- C3 (amended): the validation checks run in the source order — header
object, payload object, private key a non-empty string (for every
algorithm), then algorithm, then kid — and `generateToken` raises exactly
the error of the first failing check for every provider (hence before any
signing), and succeeds when all checks pass. -/
theorem c3_validation_order (P : CryptoProvider)
    (headers payload sk pkv : JSValue) :
    (∀ msg, validationOutcome headers payload pkv = some msg →
      generateToken P headers payload sk pkv = Except.error msg) ∧
    (validationOutcome headers payload pkv = none →
      ∃ t, generateToken P headers payload sk pkv = Except.ok t) :=
  ⟨fun msg h => generateToken_error_of_outcome P headers payload sk pkv msg h,
   fun h => generateToken_ok_of_outcome_none P headers payload sk pkv h⟩

/-- Witness for C3: a null header is rejected with the header error. -/
theorem c3_validation_order_witness :
    generateToken trivialProvider JSValue.nullv (JSValue.objv [])
      (JSValue.strv "sk") (JSValue.strv "pem") =
      Except.error "Headers must be an object" :=
  (c3_validation_order trivialProvider JSValue.nullv (JSValue.objv [])
    (JSValue.strv "sk") (JSValue.strv "pem")).1 "Headers must be an object" rfl

/-- Counterexample to C3 as stated: with `alg:"SHA256"`, a valid header and
payload and absent key material, the claim says the private-key check is
skipped (it applies only to PS256/RS256) and the call proceeds; the code
checks the private key third, for every algorithm, and fails. -/
theorem c3_counterexample :
    generateToken trivialProvider (JSValue.objv shaHeader) (JSValue.objv subPayload)
        (JSValue.strv "sk") JSValue.undefined =
      Except.error "Private key must be a string in PEM format" ∧
    ∀ t, generateToken trivialProvider (JSValue.objv shaHeader)
        (JSValue.objv subPayload) (JSValue.strv "sk") JSValue.undefined ≠
      Except.ok t :=
  ⟨rfl, fun _ h => Except.noConfusion h⟩

/-- C4 (amended): with `alg:"SHA256"` and the private key supplied as a
non-empty string, the call succeeds and the token — in particular the
signature segment — does not depend on which key string was supplied; but
absent key material is rejected (see the C4 counterexample), because the
code requires a key string for every algorithm. -/
theorem c4_sha256_ignores_key_value (P : CryptoProvider)
    (ho po : List (String × Json)) (sk : JSValue) (pk1 pk2 : String)
    (halg : lookupField ho "alg" = some (Json.str "SHA256"))
    (hkid : jsTruthy (lookupField ho "kid") = true)
    (h1 : pk1 ≠ "") (h2 : pk2 ≠ "") :
    ∃ t, generateToken P (JSValue.objv ho) (JSValue.objv po) sk
          (JSValue.strv pk1) = Except.ok t ∧
        generateToken P (JSValue.objv ho) (JSValue.objv po) sk
          (JSValue.strv pk2) = Except.ok t :=
  ⟨_, generateToken_ok_SHA256 P ho po sk pk1 h1 halg hkid,
    generateToken_ok_SHA256 P ho po sk pk2 h2 halg hkid⟩

/-- Witness for C4 at the SHA256 fixture with two different key strings. -/
theorem c4_sha256_ignores_key_value_witness :
    ∃ t, generateToken trivialProvider (JSValue.objv shaHeader)
          (JSValue.objv subPayload) (JSValue.strv "sk")
          (JSValue.strv "pemA") = Except.ok t ∧
        generateToken trivialProvider (JSValue.objv shaHeader)
          (JSValue.objv subPayload) (JSValue.strv "sk")
          (JSValue.strv "pemB") = Except.ok t :=
  c4_sha256_ignores_key_value trivialProvider shaHeader subPayload
    (JSValue.strv "sk") "pemA" "pemB" rfl rfl (by decide) (by decide)

/-- Counterexample to C4 as stated: `alg:"SHA256"` with absent private key
material does not succeed — the code rejects it with the private-key
error. -/
theorem c4_counterexample :
    generateToken trivialProvider (JSValue.objv shaHeader) (JSValue.objv [])
        (JSValue.strv "sk") JSValue.undefined =
      Except.error "Private key must be a string in PEM format" ∧
    ∀ t, generateToken trivialProvider (JSValue.objv shaHeader)
        (JSValue.objv []) (JSValue.strv "sk") JSValue.undefined ≠
      Except.ok t :=
  ⟨rfl, fun _ h => Except.noConfusion h⟩

/-- C5: the canonicalized header always carries `typ = "JWT"`, overwriting
any caller-supplied `typ`, and every other caller-supplied field is looked
up unchanged. -/
theorem c5_typ_overwritten (fs : List (String × Json)) :
    lookupField (canonicalizeHeader fs) "typ" = some (Json.str "JWT") ∧
    ∀ k, k ≠ "typ" → lookupField (canonicalizeHeader fs) k = lookupField fs k :=
  ⟨lookupField_setField_self fs "typ" (Json.str "JWT"),
   fun k hk => lookupField_setField_ne fs "typ" k (Json.str "JWT") hk⟩

/-- Witness for C5 on a header that supplies `typ: "something-else"`. -/
theorem c5_typ_overwritten_witness :
    lookupField (canonicalizeHeader
      [("typ", Json.str "something-else"), ("alg", Json.str "RS256")]) "typ" =
        some (Json.str "JWT") ∧
    lookupField (canonicalizeHeader
      [("typ", Json.str "something-else"), ("alg", Json.str "RS256")]) "alg" =
      lookupField [("typ", Json.str "something-else"),
        ("alg", Json.str "RS256")] "alg" :=
  ⟨(c5_typ_overwritten _).1, (c5_typ_overwritten _).2 "alg" (by decide)⟩

/-- C6: for every valid input (header and payload objects, non-empty key
string, supported algorithm, truthy kid) and any provider whose signature
and digest primitives return at least one byte, the returned token splits
as three non-empty segments joined by two dots, no segment contains `+`,
`/`, `=` (or `.`), and the whole token contains exactly two `.`
characters. -/
theorem c6_token_shape (P : CryptoProvider) (ho po : List (String × Json))
    (sk : JSValue) (pk : String) (hpk : pk ≠ "")
    (halg : algIncluded ho = true)
    (hkid : jsTruthy (lookupField ho "kid") = true)
    (hsig : ∀ d k, P.pkcs1Sign d k ≠ [])
    (hdig : ∀ bs, P.sha256Digest bs ≠ []) :
    ∃ a b c, generateToken P (JSValue.objv ho) (JSValue.objv po) sk
        (JSValue.strv pk) = Except.ok (a ++ "." ++ b ++ "." ++ c) ∧
      a ≠ "" ∧ b ≠ "" ∧ c ≠ "" ∧
      (∀ ch ∈ a.data, ch ≠ '+' ∧ ch ≠ '/' ∧ ch ≠ '=' ∧ ch ≠ '.') ∧
      (∀ ch ∈ b.data, ch ≠ '+' ∧ ch ≠ '/' ∧ ch ≠ '=' ∧ ch ≠ '.') ∧
      (∀ ch ∈ c.data, ch ≠ '+' ∧ ch ≠ '/' ∧ ch ≠ '=' ∧ ch ≠ '.') ∧
      (a ++ "." ++ b ++ "." ++ c).data.count '.' = 2 := by
  have hEH := base64UrlEncode_ne_empty (jsonToString (Json.obj (canonicalizeHeader ho)))
    (jsonToString_obj_data_ne_nil _)
  have hEP := base64UrlEncode_ne_empty (jsonToString (Json.obj po))
    (jsonToString_obj_data_ne_nil _)
  rcases algIncluded_cases ho halg with h1 | h1 | h1
  · refine ⟨_, _, _, generateToken_ok_PS256 P ho po sk pk hpk h1 hkid,
      hEH, hEP, base64UrlEncode_of_b64_ne_empty _ (hsig _ _),
      base64UrlEncode_forbidden _, base64UrlEncode_forbidden _,
      base64UrlEncode_forbidden _, ?_⟩
    exact dotfree_count _ _ _
      (fun ch h => (base64UrlEncode_forbidden _ ch h).2.2.2)
      (fun ch h => (base64UrlEncode_forbidden _ ch h).2.2.2)
      (fun ch h => (base64UrlEncode_forbidden _ ch h).2.2.2)
  · refine ⟨_, _, _, generateToken_ok_RS256 P ho po sk pk hpk h1 hkid,
      hEH, hEP, base64UrlEncode_of_b64_ne_empty _ (hsig _ _),
      base64UrlEncode_forbidden _, base64UrlEncode_forbidden _,
      base64UrlEncode_forbidden _, ?_⟩
    exact dotfree_count _ _ _
      (fun ch h => (base64UrlEncode_forbidden _ ch h).2.2.2)
      (fun ch h => (base64UrlEncode_forbidden _ ch h).2.2.2)
      (fun ch h => (base64UrlEncode_forbidden _ ch h).2.2.2)
  · refine ⟨_, _, _, generateToken_ok_SHA256 P ho po sk pk hpk h1 hkid,
      hEH, hEP, base64UrlEncode_of_b64_ne_empty _ (hdig _),
      base64UrlEncode_forbidden _, base64UrlEncode_forbidden _,
      base64UrlEncode_forbidden _, ?_⟩
    exact dotfree_count _ _ _
      (fun ch h => (base64UrlEncode_forbidden _ ch h).2.2.2)
      (fun ch h => (base64UrlEncode_forbidden _ ch h).2.2.2)
      (fun ch h => (base64UrlEncode_forbidden _ ch h).2.2.2)

/-- Witness for C6 at the RS256 fixture with the trivial provider. -/
theorem c6_token_shape_witness :
    ∃ a b c, generateToken trivialProvider (JSValue.objv rsHeader)
        (JSValue.objv subPayload) (JSValue.strv "sk") (JSValue.strv "pem") =
        Except.ok (a ++ "." ++ b ++ "." ++ c) ∧
      a ≠ "" ∧ b ≠ "" ∧ c ≠ "" ∧
      (∀ ch ∈ a.data, ch ≠ '+' ∧ ch ≠ '/' ∧ ch ≠ '=' ∧ ch ≠ '.') ∧
      (∀ ch ∈ b.data, ch ≠ '+' ∧ ch ≠ '/' ∧ ch ≠ '=' ∧ ch ≠ '.') ∧
      (∀ ch ∈ c.data, ch ≠ '+' ∧ ch ≠ '/' ∧ ch ≠ '=' ∧ ch ≠ '.') ∧
      (a ++ "." ++ b ++ "." ++ c).data.count '.' = 2 :=
  c6_token_shape trivialProvider rsHeader subPayload (JSValue.strv "sk") "pem"
    (by decide) (by decide) rfl
    (fun d k => by simp [trivialProvider])
    (fun bs => by simp [trivialProvider])

/-- C7 (amended): when the header and payload are objects and the private
key is a non-empty string, an absent or unsupported `alg` is rejected with
the invalid-algorithm error, whose message enumerates PS256, RS256 and
SHA256; the result is this same error for every provider, so no signing
primitive is consulted.  As stated the claim is false when an earlier check
fails: the private-key check runs before the algorithm check (see the C7
counterexample). -/
theorem c7_invalid_algorithm (P : CryptoProvider) (ho po : List (String × Json))
    (sk : JSValue) (pk : String) (hpk : pk ≠ "")
    (halg : algIncluded ho = false) :
    generateToken P (JSValue.objv ho) (JSValue.objv po) sk (JSValue.strv pk) =
      Except.error "Invalid algorithm. Supported: PS256, RS256, SHA256" := by
  have hcond : (!jsTruthy (lookupField ho "alg") || !algIncluded ho) = true := by
    simp [halg]
  simp only [generateToken, if_neg hpk, if_pos hcond]
  rfl

/-- Witness for C7: `alg:"HS256"` with a key string present. -/
theorem c7_invalid_algorithm_witness :
    generateToken trivialProvider
      (JSValue.objv [("alg", Json.str "HS256"), ("kid", Json.str "k1")])
      (JSValue.objv []) (JSValue.strv "sk") (JSValue.strv "pem") =
      Except.error "Invalid algorithm. Supported: PS256, RS256, SHA256" :=
  c7_invalid_algorithm trivialProvider
    [("alg", Json.str "HS256"), ("kid", Json.str "k1")] [] (JSValue.strv "sk")
    "pem" (by decide) (by decide)

/-- Counterexample to C7 as stated: with `alg:"HS256"` and absent key
material the code raises the private-key error, not the invalid-algorithm
error. -/
theorem c7_counterexample :
    generateToken trivialProvider
      (JSValue.objv [("alg", Json.str "HS256"), ("kid", Json.str "k1")])
      (JSValue.objv []) (JSValue.strv "sk") JSValue.undefined =
      Except.error "Private key must be a string in PEM format" ∧
    "Private key must be a string in PEM format" ≠
      "Invalid algorithm. Supported: PS256, RS256, SHA256" :=
  ⟨rfl, by decide⟩

/-- C8: the `signing_key` parameter is never consulted: two calls differing
only in it return identical results — token and signature included — for
every provider, every header and payload, and every algorithm. -/
theorem c8_signing_key_no_effect (P : CryptoProvider)
    (headers payload sk1 sk2 pkv : JSValue) :
    generateToken P headers payload sk1 pkv =
      generateToken P headers payload sk2 pkv := rfl

/-- C9: two calls with identical inputs agree whenever their providers
agree on the deterministic primitives (PKCS#1 v1.5 signing and SHA-256),
even if the randomized PSS primitive differs between the calls — in
particular for `alg` RS256 or SHA256 the token is byte-identical across
calls. -/
theorem c9_deterministic_for_rs256_sha256 (P1 P2 : CryptoProvider)
    (headers payload sk pkv : JSValue)
    (hf : P1.pkcs1Sign = P2.pkcs1Sign)
    (hd : P1.sha256Digest = P2.sha256Digest)
    (_halg : ∃ ho, headers = JSValue.objv ho ∧
      (lookupField ho "alg" = some (Json.str "RS256") ∨
       lookupField ho "alg" = some (Json.str "SHA256"))) :
    generateToken P1 headers payload sk pkv =
      generateToken P2 headers payload sk pkv := by
  obtain ⟨f1, g1, d1⟩ := P1
  obtain ⟨f2, g2, d2⟩ := P2
  simp only at hf hd
  subst hf
  subst hd
  exact generateToken_det_fields f1 g1 g2 d1 headers payload sk pkv

/-- Witness for C9: two providers differing only in the PSS primitive, at
the RS256 fixture. -/
theorem c9_deterministic_for_rs256_sha256_witness :
    generateToken trivialProvider (JSValue.objv rsHeader)
        (JSValue.objv subPayload) (JSValue.strv "sk") (JSValue.strv "pem") =
      generateToken otherSaltProvider (JSValue.objv rsHeader)
        (JSValue.objv subPayload) (JSValue.strv "sk") (JSValue.strv "pem") :=
  c9_deterministic_for_rs256_sha256 trivialProvider otherSaltProvider
    (JSValue.objv rsHeader) (JSValue.objv subPayload) (JSValue.strv "sk")
    (JSValue.strv "pem") rfl rfl ⟨rsHeader, rfl, Or.inl rfl⟩

/-- C10: `signPS256` and `signRS256` are the same function of data and key,
and a PS256 token is assembled by exactly the RS256 signing pipeline
(`tokenWithSig`) applied to its own encoded header — as is an RS256 token —
so the two algorithms differ only in the header bytes fed to one shared
pipeline. -/
theorem c10_ps256_rs256_identical :
    (∀ (P : CryptoProvider) (data key : String),
      signPS256 P data key = signRS256 P data key) ∧
    (∀ (P : CryptoProvider) (ho po : List (String × Json)) (sk : JSValue)
      (pk : String), pk ≠ "" →
      lookupField ho "alg" = some (Json.str "PS256") →
      jsTruthy (lookupField ho "kid") = true →
      generateToken P (JSValue.objv ho) (JSValue.objv po) sk (JSValue.strv pk) =
        Except.ok (tokenWithSig P
          (base64UrlEncode (jsonToString (Json.obj (canonicalizeHeader ho))))
          (base64UrlEncode (jsonToString (Json.obj po))) pk)) ∧
    (∀ (P : CryptoProvider) (ho po : List (String × Json)) (sk : JSValue)
      (pk : String), pk ≠ "" →
      lookupField ho "alg" = some (Json.str "RS256") →
      jsTruthy (lookupField ho "kid") = true →
      generateToken P (JSValue.objv ho) (JSValue.objv po) sk (JSValue.strv pk) =
        Except.ok (tokenWithSig P
          (base64UrlEncode (jsonToString (Json.obj (canonicalizeHeader ho))))
          (base64UrlEncode (jsonToString (Json.obj po))) pk)) :=
  ⟨fun _ _ _ => rfl,
   fun P ho po sk pk hpk halg hkid =>
     generateToken_ok_PS256 P ho po sk pk hpk halg hkid,
   fun P ho po sk pk hpk halg hkid =>
     generateToken_ok_RS256 P ho po sk pk hpk halg hkid⟩

/-- Witness for C10 at the PS256 fixture. -/
theorem c10_ps256_rs256_identical_witness :
    generateToken trivialProvider (JSValue.objv psHeader)
        (JSValue.objv subPayload) (JSValue.strv "sk") (JSValue.strv "pem") =
      Except.ok (tokenWithSig trivialProvider
        (base64UrlEncode (jsonToString (Json.obj (canonicalizeHeader psHeader))))
        (base64UrlEncode (jsonToString (Json.obj subPayload))) "pem") :=
  c10_ps256_rs256_identical.2.1 trivialProvider psHeader subPayload
    (JSValue.strv "sk") "pem" (by decide) rfl rfl

end JWTGen
